import Mathlib

/-!
Verification of `add_category.py`: a one-off migration script that reads a
JSON array of therapy-advice records, derives a `category` field for each
record from its `contexts` field via the fixed `context_mapping` table, and
writes the array back to the same file.

The embedding below mirrors the script directly: `Record` carries the two
fields the script touches (`contexts` may be absent, hence `Option`;
`category` likewise) plus an opaque list `rest` of the remaining key-value
pairs, which the script never reads or writes.  `annotateRecord` is the body
of the per-item branch of `add_category_field`, and `add_category_field` is
the loop over the document.  `add_category_field_run` models the surrounding
file I/O: a missing file makes `open` fail before anything is written, and
invalid JSON makes `json.load` fail before anything is written.
-/

/-- A record of the JSON document.  `contexts` is the optional ordered list of
context strings (`none` when the key is absent), `category` is the optional
pre-existing category value, and `rest` holds every other key-value pair of
the object, which the script never touches. -/
structure Record where
  contexts : Option (List String)
  category : Option String
  rest : List (String × String)
deriving DecidableEq, Repr

/-- The fixed `context_mapping` dictionary of the script: nine entries from
context labels to category labels. -/
def context_mapping : List (String × String) :=
  [("conflict", "conflict_resolution"),
   ("repair", "repair"),
   ("boundary", "boundary"),
   ("planning", "practical"),
   ("co_parenting", "relationship"),
   ("work/school", "communication"),
   ("safety", "emotional"),
   ("misunderstanding", "clarity"),
   ("general", "general")]

/-- The per-item body of the loop in `add_category_field`: if the record has a
non-empty `contexts` list, look its first element up in `context_mapping`
(defaulting to `"emotional"`, as `dict.get` with a default does) and store the
result in `category`; otherwise store `"general"`. -/
def annotateRecord (item : Record) : Record :=
  match item.contexts with
  | some (primary_context :: _) =>
      Record.mk item.contexts
        (some ((context_mapping.lookup primary_context).getD "emotional"))
        item.rest
  | _ => Record.mk item.contexts (some "general") item.rest

/-- The pure core of `add_category_field`: process each item of the document
in order. -/
def add_category_field (data : List Record) : List Record :=
  data.map annotateRecord

/-- The nine category labels that occur as values of `context_mapping`. -/
def category_values : List String :=
  ["conflict_resolution", "repair", "boundary", "practical",
   "relationship", "communication", "emotional", "clarity", "general"]

/-- A record with its `category` key removed; used to compare documents that
agree on everything except `category`. -/
def Record.eraseCategory (r : Record) : Record :=
  Record.mk r.contexts none r.rest

/-- The state of the file at the script's fixed path: absent, present but not
valid JSON (with its raw contents), or a parsed document. -/
inductive FileState where
  | missing : FileState
  | invalid : String → FileState
  | doc : List Record → FileState
deriving DecidableEq

/-- How a run of the script terminates. -/
inductive RunOutcome where
  | fileNotFound : RunOutcome
  | parseError : RunOutcome
  | success : RunOutcome
deriving DecidableEq

/-- The I/O wrapper of `add_category_field`.  `open` on a missing file raises
before anything is written; `json.load` on invalid JSON raises before
anything is written; otherwise the whole transformed document replaces the
file.  Returns the outcome together with the final file state. -/
def add_category_field_run (f : FileState) : RunOutcome × FileState :=
  match f with
  | FileState.missing => (RunOutcome.fileNotFound, FileState.missing)
  | FileState.invalid raw => (RunOutcome.parseError, FileState.invalid raw)
  | FileState.doc d => (RunOutcome.success, FileState.doc (add_category_field d))

/-! ### Helper lemmas -/

/-- Annotating never changes the `contexts` field. -/
theorem annotateRecord_contexts (r : Record) :
    (annotateRecord r).contexts = r.contexts := by
  rcases r with ⟨cx, cat, rest⟩
  cases cx with
  | none => rfl
  | some cs => cases cs <;> rfl

/-- Annotating never changes the `rest` fields. -/
theorem annotateRecord_rest (r : Record) :
    (annotateRecord r).rest = r.rest := by
  rcases r with ⟨cx, cat, rest⟩
  cases cx with
  | none => rfl
  | some cs => cases cs <;> rfl

/-- Every value stored by `context_mapping` is one of the nine category
labels. -/
theorem lookup_mem_category_values (c v : String)
    (h : context_mapping.lookup c = some v) : v ∈ category_values := by
  simp only [context_mapping, List.lookup] at h
  repeat' split at h
  all_goals simp_all [category_values]

/-- The category assigned by `annotateRecord` is always one of the nine
labels of `category_values`. -/
theorem annotateRecord_category_mem (r : Record) :
    ∃ s, (annotateRecord r).category = some s ∧ s ∈ category_values := by
  rcases r with ⟨cx, cat, rest⟩
  cases cx with
  | none => exact ⟨"general", rfl, by decide⟩
  | some cs =>
    cases cs with
    | nil => exact ⟨"general", rfl, by decide⟩
    | cons c tl =>
      refine ⟨(context_mapping.lookup c).getD "emotional", rfl, ?_⟩
      cases hm : context_mapping.lookup c with
      | none => simp [category_values]
      | some v => simpa using lookup_mem_category_values c v hm

/-- Annotating a record twice is the same as annotating it once. -/
theorem annotateRecord_idem (r : Record) :
    annotateRecord (annotateRecord r) = annotateRecord r := by
  rcases r with ⟨cx, cat, rest⟩
  cases cx with
  | none => rfl
  | some cs => cases cs <;> rfl

/-- The assigned annotation depends only on the record without its `category`
field. -/
theorem annotateRecord_congr (r1 r2 : Record)
    (h : r1.eraseCategory = r2.eraseCategory) :
    annotateRecord r1 = annotateRecord r2 := by
  rcases r1 with ⟨cx1, cat1, rest1⟩
  rcases r2 with ⟨cx2, cat2, rest2⟩
  simp only [Record.eraseCategory, Record.mk.injEq] at h
  obtain ⟨h1, -, h2⟩ := h
  subst h1
  subst h2
  cases cx1 with
  | none => rfl
  | some cs => cases cs <;> rfl

/-! ### Claims -/

/-- C1: for every record of the document whose `contexts` field is present and
non-empty and whose first element is a key of `context_mapping`, the output
record at the same position has `category` equal to the mapped value,
regardless of any pre-existing `category` value. -/
theorem c1_mapped_primary_context (data : List Record) (i : Nat) (r : Record)
    (c v : String) (cs : List String)
    (hr : data[i]? = some r)
    (hc : r.contexts = some (c :: cs))
    (hm : context_mapping.lookup c = some v) :
    ∃ r2, (add_category_field data)[i]? = some r2 ∧ r2.category = some v := by
  refine ⟨annotateRecord r, ?_, ?_⟩
  · simp [add_category_field, List.getElem?_map, hr]
  · simp [annotateRecord, hc, hm]

/-- Witness for C1 at a concrete one-record document whose record already
carries a stale `category` value. -/
theorem c1_mapped_primary_context_witness :
    ∃ r2,
      (add_category_field
        [Record.mk (some ["conflict"]) (some "old_value") []])[0]? = some r2 ∧
      r2.category = some "conflict_resolution" :=
  c1_mapped_primary_context
    [Record.mk (some ["conflict"]) (some "old_value") []] 0
    (Record.mk (some ["conflict"]) (some "old_value") [])
    "conflict" "conflict_resolution" [] rfl rfl (by decide)

/-- C2: for every record whose `contexts` field is present and non-empty but
whose first element is not a key of `context_mapping`, the output record at
the same position has `category` equal to the literal string "emotional". -/
theorem c2_unmapped_primary_context (data : List Record) (i : Nat) (r : Record)
    (c : String) (cs : List String)
    (hr : data[i]? = some r)
    (hc : r.contexts = some (c :: cs))
    (hm : context_mapping.lookup c = none) :
    ∃ r2, (add_category_field data)[i]? = some r2 ∧
      r2.category = some "emotional" := by
  refine ⟨annotateRecord r, ?_, ?_⟩
  · simp [add_category_field, List.getElem?_map, hr]
  · simp [annotateRecord, hc, hm]

/-- Witness for C2 at a concrete record whose first context is not in the
table. -/
theorem c2_unmapped_primary_context_witness :
    ∃ r2,
      (add_category_field
        [Record.mk (some ["unknown_label"]) none []])[0]? = some r2 ∧
      r2.category = some "emotional" :=
  c2_unmapped_primary_context
    [Record.mk (some ["unknown_label"]) none []] 0
    (Record.mk (some ["unknown_label"]) none [])
    "unknown_label" [] rfl rfl (by decide)

/-- C3: for every record whose `contexts` field is absent or an empty list,
the output record at the same position has `category` equal to the literal
string "general". -/
theorem c3_missing_or_empty_contexts (data : List Record) (i : Nat)
    (r : Record)
    (hr : data[i]? = some r)
    (hc : r.contexts = none ∨ r.contexts = some []) :
    ∃ r2, (add_category_field data)[i]? = some r2 ∧
      r2.category = some "general" := by
  refine ⟨annotateRecord r, ?_, ?_⟩
  · simp [add_category_field, List.getElem?_map, hr]
  · rcases hc with h | h <;> simp [annotateRecord, h]

/-- Witness for C3 at a concrete record without a `contexts` key. -/
theorem c3_missing_or_empty_contexts_witness :
    ∃ r2, (add_category_field [Record.mk none none []])[0]? = some r2 ∧
      r2.category = some "general" :=
  c3_missing_or_empty_contexts [Record.mk none none []] 0
    (Record.mk none none []) rfl (Or.inl rfl)

/-- C4: the per-record transform only touches `category`: for every record of
the input, the output record at the same position has identical `contexts`
and identical remaining key-value pairs. -/
theorem c4_other_fields_unchanged (data : List Record) (i : Nat) (r : Record)
    (hr : data[i]? = some r) :
    ∃ r2, (add_category_field data)[i]? = some r2 ∧
      r2.contexts = r.contexts ∧ r2.rest = r.rest := by
  refine ⟨annotateRecord r, ?_, annotateRecord_contexts r, annotateRecord_rest r⟩
  simp [add_category_field, List.getElem?_map, hr]

/-- Witness for C4 at a concrete record with an extra untouched field. -/
theorem c4_other_fields_unchanged_witness :
    ∃ r2,
      (add_category_field
        [Record.mk (some ["safety", "repair"]) none [("text", "hi")]])[0]? =
        some r2 ∧
      r2.contexts = some ["safety", "repair"] ∧
      r2.rest = [("text", "hi")] :=
  c4_other_fields_unchanged
    [Record.mk (some ["safety", "repair"]) none [("text", "hi")]] 0
    (Record.mk (some ["safety", "repair"]) none [("text", "hi")]) rfl

/-- C5: the output document has exactly as many records as the input, and the
record at each position of the output is the annotated version of the record
at the same position of the input. -/
theorem c5_order_and_count_preserved (data : List Record) :
    (add_category_field data).length = data.length ∧
    ∀ i : Nat, (add_category_field data)[i]? =
      (data[i]?).map annotateRecord := by
  refine ⟨by simp [add_category_field], fun i => ?_⟩
  simp [add_category_field, List.getElem?_map]

/-- C6: the document-level transform is idempotent. -/
theorem c6_idempotent (data : List Record) :
    add_category_field (add_category_field data) = add_category_field data := by
  unfold add_category_field
  rw [List.map_map]
  exact List.map_congr_left fun r _ => annotateRecord_idem r

/-- C7: every record of the output document has a `category` field holding a
non-empty string. -/
theorem c7_category_nonempty (data : List Record) (i : Nat) (r2 : Record)
    (h : (add_category_field data)[i]? = some r2) :
    ∃ s, r2.category = some s ∧ s ≠ "" := by
  simp only [add_category_field, List.getElem?_map, Option.map_eq_some'] at h
  obtain ⟨r, -, hr⟩ := h
  obtain ⟨s, hs, hmem⟩ := annotateRecord_category_mem r
  refine ⟨s, hr ▸ hs, ?_⟩
  intro hempty
  subst hempty
  exact absurd hmem (by decide)

/-- Witness for C7 at a concrete one-record document. -/
theorem c7_category_nonempty_witness :
    ∃ s, (Record.mk (some ["planning"]) (some "practical") []).category =
      some s ∧ s ≠ "" :=
  c7_category_nonempty [Record.mk (some ["planning"]) none []] 0
    (Record.mk (some ["planning"]) (some "practical") []) (by decide)

/-- C8: if loading fails — the file is missing (FileNotFound) or its contents
are not valid JSON (ParseError) — the run terminates with that error and the
file is left exactly as it was: nothing is written. -/
theorem c8_load_failure_writes_nothing (f : FileState)
    (h : f = FileState.missing ∨ ∃ raw, f = FileState.invalid raw) :
    (add_category_field_run f).2 = f ∧
    (add_category_field_run f).1 ≠ RunOutcome.success ∧
    (f = FileState.missing →
      (add_category_field_run f).1 = RunOutcome.fileNotFound) ∧
    (∀ raw, f = FileState.invalid raw →
      (add_category_field_run f).1 = RunOutcome.parseError) := by
  rcases h with h | ⟨raw, h⟩
  · subst h
    refine ⟨rfl, by decide, fun _ => rfl, ?_⟩
    intro raw2 hraw2
    cases hraw2
  · subst h
    refine ⟨rfl, by simp [add_category_field_run], ?_, fun raw2 _ => rfl⟩
    intro hmiss
    cases hmiss

/-- Witness for C8 at a concrete malformed file. -/
theorem c8_load_failure_writes_nothing_witness :
    (add_category_field_run (FileState.invalid "not json")).2 =
      FileState.invalid "not json" ∧
    (add_category_field_run (FileState.invalid "not json")).1 ≠
      RunOutcome.success ∧
    (FileState.invalid "not json" = FileState.missing →
      (add_category_field_run (FileState.invalid "not json")).1 =
        RunOutcome.fileNotFound) ∧
    (∀ raw, FileState.invalid "not json" = FileState.invalid raw →
      (add_category_field_run (FileState.invalid "not json")).1 =
        RunOutcome.parseError) :=
  c8_load_failure_writes_nothing (FileState.invalid "not json")
    (Or.inr ⟨"not json", rfl⟩)

/-- C9: every record of the output document carries a `category` drawn from
the nine-element range of `context_mapping` (both fallback values,
"emotional" and "general", already occur in that range). -/
theorem c9_category_in_range (data : List Record) (i : Nat) (r2 : Record)
    (h : (add_category_field data)[i]? = some r2) :
    ∃ s, r2.category = some s ∧ s ∈ category_values := by
  simp only [add_category_field, List.getElem?_map, Option.map_eq_some'] at h
  obtain ⟨r, -, hr⟩ := h
  obtain ⟨s, hs, hmem⟩ := annotateRecord_category_mem r
  exact ⟨s, hr ▸ hs, hmem⟩

/-- Witness for C9 at a concrete record whose context is not in the table. -/
theorem c9_category_in_range_witness :
    ∃ s, (Record.mk (some ["venting"]) (some "emotional") []).category =
      some s ∧ s ∈ category_values :=
  c9_category_in_range [Record.mk (some ["venting"]) none []] 0
    (Record.mk (some ["venting"]) (some "emotional") []) (by decide)

/-- C10: noninterference from the pre-existing `category` values: two input
documents that agree once every record's `category` field is erased produce
identical output documents. -/
theorem c10_category_noninterference (d1 d2 : List Record)
    (h : d1.map Record.eraseCategory = d2.map Record.eraseCategory) :
    add_category_field d1 = add_category_field d2 := by
  induction d1 generalizing d2 with
  | nil =>
    cases d2 with
    | nil => rfl
    | cons r2 rs2 => simp at h
  | cons r rs ih =>
    cases d2 with
    | nil => simp at h
    | cons r2 rs2 =>
      simp only [List.map_cons, List.cons.injEq] at h
      obtain ⟨h1, h2⟩ := h
      simp only [add_category_field, List.map_cons]
      rw [annotateRecord_congr r r2 h1]
      have htl := ih rs2 h2
      simpa [add_category_field] using htl

/-- Witness for C10 at two concrete documents that differ only in the
presence and value of `category`. -/
theorem c10_category_noninterference_witness :
    [Record.mk (some ["repair"]) (some "stale") []].map Record.eraseCategory =
      [Record.mk (some ["repair"]) none []].map Record.eraseCategory ∧
    add_category_field [Record.mk (some ["repair"]) (some "stale") []] =
      add_category_field [Record.mk (some ["repair"]) none []] :=
  ⟨by decide,
   c10_category_noninterference
     [Record.mk (some ["repair"]) (some "stale") []]
     [Record.mk (some ["repair"]) none []] (by decide)⟩
